import Mathlib

/-!
Verification development for the Cardio-Vascular-AI application
(`src/new/app.py`).  The logical core of the program is the feature
derivation (lines 225-231), the construction of the model input row
(lines 233-238), the classifier adapter (lines 240-259) and the model
loading guard (lines 153-161).  Numeric values are embedded as rational
numbers: every constant appearing in the source (18.5, 25, 30, 0.35,
0.65, 100) is exactly representable, so rational arithmetic coincides
with the Python float arithmetic on all values of interest.
-/

namespace CardioAI

/-- The complete set of user-provided form fields of the Streamlit app
(lines 191-215 of `app.py`).  All are integers or integer-encoded enums. -/
structure RawAssessmentInput where
  age_years : ℤ
  gender : ℤ
  height : ℤ
  weight : ℤ
  ap_hi : ℤ
  ap_lo : ℤ
  cholesterol : ℤ
  gluc : ℤ
  smoke : ℤ
  alco : ℤ
  active : ℤ
  deriving DecidableEq, Repr

/-- Line 225: `bmi = weight / ((height / 100) ** 2)`. -/
def bmiOf (r : RawAssessmentInput) : ℚ :=
  (r.weight : ℚ) / (((r.height : ℚ) / 100) ^ 2)

/-- Line 226: `bp_diff = ap_hi - ap_lo`. -/
def bp_diffOf (r : RawAssessmentInput) : ℤ :=
  r.ap_hi - r.ap_lo

/-- Lines 228-231: the if/elif chain bucketing bmi into a category. -/
def bmi_catOf (bmi : ℚ) : ℕ :=
  if bmi < 37/2 then 0
  else if bmi < 25 then 1
  else if bmi < 30 then 2
  else 3

/-- The derived feature record: the three engineered features together
with the eleven raw fields (lines 225-238). -/
structure FeatureRecord where
  age_years : ℤ
  height : ℤ
  weight : ℤ
  ap_hi : ℤ
  ap_lo : ℤ
  bmi : ℚ
  bp_diff : ℤ
  gender : ℤ
  cholesterol : ℤ
  gluc : ℤ
  smoke : ℤ
  active : ℤ
  alco : ℤ
  bmi_cat : ℕ
  deriving DecidableEq, Repr

/-- Feature derivation, lines 225-238: computes bmi, bp_diff, bmi_cat
and passes the raw fields through unchanged. -/
def derive (r : RawAssessmentInput) : FeatureRecord :=
  { age_years := r.age_years
    height := r.height
    weight := r.weight
    ap_hi := r.ap_hi
    ap_lo := r.ap_lo
    bmi := bmiOf r
    bp_diff := bp_diffOf r
    gender := r.gender
    cholesterol := r.cholesterol
    gluc := r.gluc
    smoke := r.smoke
    active := r.active
    alco := r.alco
    bmi_cat := bmi_catOf (bmiOf r) }

/-- Lines 233-238: the single-row DataFrame handed to the model, as the
ordered association list written in the source dict (Python dicts keep
insertion order).  All values are read as rationals. -/
def input_data (r : RawAssessmentInput) : List (String × ℚ) :=
  [ ("age_years", ((derive r).age_years : ℚ))
  , ("height", ((derive r).height : ℚ))
  , ("weight", ((derive r).weight : ℚ))
  , ("ap_hi", ((derive r).ap_hi : ℚ))
  , ("ap_lo", ((derive r).ap_lo : ℚ))
  , ("bmi", (derive r).bmi)
  , ("bp_diff", ((derive r).bp_diff : ℚ))
  , ("gender", ((derive r).gender : ℚ))
  , ("cholesterol", ((derive r).cholesterol : ℚ))
  , ("gluc", ((derive r).gluc : ℚ))
  , ("smoke", ((derive r).smoke : ℚ))
  , ("active", ((derive r).active : ℚ))
  , ("alco", ((derive r).alco : ℚ))
  , ("bmi_cat", ((derive r).bmi_cat : ℚ)) ]

/-- The external classifier capability: `predict` returns the class
label and `predict_proba` the ordered pair (prob of class 0, prob of
class 1) for the single row. -/
structure Classifier where
  predict : List (String × ℚ) → ℤ
  predict_proba : List (String × ℚ) → ℚ × ℚ

/-- Line 245-259 branching on `probability`: the displayed tier label. -/
def risk_labelOf (probability : ℚ) : String :=
  if probability < 7/20 then "Low Risk"
  else if probability < 13/20 then "Moderate Risk"
  else "High Risk"

/-- Line 245-259 branching on `probability`: the advisory message. -/
def msgOf (probability : ℚ) : String :=
  if probability < 7/20 then "Great job! Maintain your healthy lifestyle."
  else if probability < 13/20 then "Warning: Consider lifestyle improvements."
  else "Action Required: Seek medical advice."

/-- The outcome of one assessment: prediction, probability of the
positive class, the confidence value computed at line 242, and the
tier/message selected at lines 245-259. -/
structure AssessmentResult where
  prediction : ℤ
  probability : ℚ
  confidence : ℚ
  risk_label : String
  msg : String
  deriving DecidableEq, Repr

/-- Lines 240-259: the classifier adapter.
`prediction = model.predict(input_data)[0]`,
`probability = model.predict_proba(input_data)[0][1]`,
`confidence = max(model.predict_proba(input_data)[0]) * 100`,
then the tier branch on `probability`. -/
def assess (model : Classifier) (d : List (String × ℚ)) : AssessmentResult :=
  let prediction := model.predict d
  let probability := (model.predict_proba d).2
  let confidence := max (model.predict_proba d).1 (model.predict_proba d).2 * 100
  { prediction := prediction
    probability := probability
    confidence := confidence
    risk_label := risk_labelOf probability
    msg := msgOf probability }

/-- One observable call to the classifier capability, with its argument. -/
inductive CallEvent
  | predictCall (arg : List (String × ℚ))
  | probaCall (arg : List (String × ℚ))
  deriving DecidableEq

/-- Lines 240-242 with an explicit call log: each occurrence of
`model.predict(...)` or `model.predict_proba(...)` in the source text
appends one event, in program order (line 240 one predict call, line 241
one predict_proba call, line 242 one more predict_proba call). -/
def assessLogged (model : Classifier) (d : List (String × ℚ)) :
    AssessmentResult × List CallEvent :=
  let log0 : List CallEvent := []
  let prediction := model.predict d
  let log1 := log0 ++ [CallEvent.predictCall d]
  let probability := (model.predict_proba d).2
  let log2 := log1 ++ [CallEvent.probaCall d]
  let confidence := max (model.predict_proba d).1 (model.predict_proba d).2 * 100
  let log3 := log2 ++ [CallEvent.probaCall d]
  ({ prediction := prediction
     probability := probability
     confidence := confidence
     risk_label := risk_labelOf probability
     msg := msgOf probability }, log3)

/-- Recognizer for predict events in a call log. -/
def isPredictCall : CallEvent → Bool
  | CallEvent.predictCall _ => true
  | CallEvent.probaCall _ => false

/-- Recognizer for predict_proba events in a call log. -/
def isProbaCall : CallEvent → Bool
  | CallEvent.predictCall _ => false
  | CallEvent.probaCall _ => true

/-- Lines 153-161: loading either yields a model or fails with an error
message (`joblib.load` raising). -/
inductive LoadOutcome
  | ok (model : Classifier)
  | failed (e : String)

/-- Lines 157-161 and 221-259 as one session: on load failure the app
shows `Error loading model: ...` and `st.stop()` halts the script, so no
assessment runs; on success the assessment proceeds. -/
def runSession (load : LoadOutcome) (r : RawAssessmentInput) :
    Except String AssessmentResult :=
  match load with
  | LoadOutcome.failed e => Except.error ("Error loading model: " ++ e)
  | LoadOutcome.ok model => Except.ok (assess model (input_data r))

/-- The interval condition defining each bmi bucket of lines 228-231. -/
def inBucket (c : ℕ) (bmi : ℚ) : Prop :=
  match c with
  | 0 => bmi < 37/2
  | 1 => 37/2 ≤ bmi ∧ bmi < 25
  | 2 => 25 ≤ bmi ∧ bmi < 30
  | 3 => 30 ≤ bmi
  | _ => False

/-- Sample raw input matching end-to-end scenario 1 of the spec (the
form defaults): age 45, gender 2, height 165, weight 70, ap_hi 120,
ap_lo 80, cholesterol 1, gluc 1, smoke 0, alco 0, active 1. -/
def sampleRaw : RawAssessmentInput :=
  { age_years := 45, gender := 2, height := 165, weight := 70
    ap_hi := 120, ap_lo := 80, cholesterol := 1, gluc := 1
    smoke := 0, alco := 0, active := 1 }

/-- A concrete classifier returning class 1 with probabilities
(0.20, 0.80) on every row, as in end-to-end scenario 2. -/
def probClassifier : Classifier :=
  { predict := fun _ => 1
    predict_proba := fun _ => (1/5, 4/5) }

/-- A raw input with systolic below diastolic (ap_hi 90 < ap_lo 120,
both inside their form ranges), for the negative pulse-pressure case. -/
def lowHighRaw : RawAssessmentInput :=
  { age_years := 60, gender := 1, height := 170, weight := 80
    ap_hi := 90, ap_lo := 120, cholesterol := 2, gluc := 2
    smoke := 1, alco := 1, active := 0 }

/-- Helper: the tier label is "Low Risk" exactly below 0.35. -/
theorem risk_label_low_iff (p : ℚ) : risk_labelOf p = "Low Risk" ↔ p < 7/20 := by
  unfold risk_labelOf
  split_ifs with h1 h2 <;> simp_all

/-- Helper: the tier label is "Moderate Risk" exactly on [0.35, 0.65). -/
theorem risk_label_moderate_iff (p : ℚ) :
    risk_labelOf p = "Moderate Risk" ↔ 7/20 ≤ p ∧ p < 13/20 := by
  unfold risk_labelOf
  split_ifs with h1 h2 <;> simp_all <;> linarith

/-- Helper: the tier label is "High Risk" exactly from 0.65 upward. -/
theorem risk_label_high_iff (p : ℚ) : risk_labelOf p = "High Risk" ↔ 13/20 ≤ p := by
  unfold risk_labelOf
  split_ifs with h1 h2 <;> simp_all <;> linarith

/-- Claim C1: for every probability in [0,1] the adapter assigns
"Low Risk" exactly when p < 0.35, "Moderate Risk" exactly when
0.35 ≤ p < 0.65, "High Risk" exactly when p ≥ 0.65, and the boundary
values 0.35 and 0.65 map to "Moderate Risk" and "High Risk". -/
theorem C1_risk_tier (model : Classifier) (d : List (String × ℚ))
    (h0 : 0 ≤ (assess model d).probability)
    (h1 : (assess model d).probability ≤ 1) :
    ((assess model d).risk_label = "Low Risk" ↔
      (assess model d).probability < 7/20) ∧
    ((assess model d).risk_label = "Moderate Risk" ↔
      7/20 ≤ (assess model d).probability ∧ (assess model d).probability < 13/20) ∧
    ((assess model d).risk_label = "High Risk" ↔
      13/20 ≤ (assess model d).probability) ∧
    risk_labelOf (7/20) = "Moderate Risk" ∧ risk_labelOf (13/20) = "High Risk" := by
  refine ⟨risk_label_low_iff _, risk_label_moderate_iff _, risk_label_high_iff _, ?_, ?_⟩
  · unfold risk_labelOf
    norm_num
  · unfold risk_labelOf
    norm_num

/-- Witness for C1 at the concrete classifier with probability 0.80. -/
theorem C1_risk_tier_witness :
    (0:ℚ) ≤ (assess probClassifier (input_data sampleRaw)).probability ∧
    (assess probClassifier (input_data sampleRaw)).probability ≤ 1 ∧
    (assess probClassifier (input_data sampleRaw)).risk_label = "High Risk" := by
  have hp : (assess probClassifier (input_data sampleRaw)).probability = 4/5 := by
    norm_num [assess, probClassifier]
  have h := C1_risk_tier probClassifier (input_data sampleRaw)
    (by rw [hp]; norm_num) (by rw [hp]; norm_num)
  exact ⟨by rw [hp]; norm_num, by rw [hp]; norm_num,
    h.2.2.1.mpr (by rw [hp]; norm_num)⟩

/-- Claim C2 counterexample: with class probabilities (0.20, 0.80) the
code computes confidence = max(0.20, 0.80) * 100 = 80, which is neither
max(p0,p1) = 0.80 nor a value in [0,1]. -/
theorem C2_confidence_counterexample :
    (assess probClassifier (input_data sampleRaw)).confidence = 80 ∧
    ¬((assess probClassifier (input_data sampleRaw)).confidence = 4/5 ∧
      (assess probClassifier (input_data sampleRaw)).confidence ≤ 1) := by
  have hc : (assess probClassifier (input_data sampleRaw)).confidence = 80 := by
    norm_num [assess, probClassifier]
  refine ⟨hc, ?_⟩
  rw [hc]
  norm_num

/-- Claim C2 amended: the confidence reported equals
100 · max(p0, p1), and when both class probabilities lie in [0,1] the
confidence lies in [0,100]; probabilities (0.20, 0.80) yield 80. -/
theorem C2_confidence_amended (model : Classifier) (d : List (String × ℚ))
    (h0 : 0 ≤ (model.predict_proba d).1)
    (h1 : (model.predict_proba d).1 ≤ 1)
    (h2 : (model.predict_proba d).2 ≤ 1) :
    (assess model d).confidence
      = max (model.predict_proba d).1 (model.predict_proba d).2 * 100 ∧
    0 ≤ (assess model d).confidence ∧ (assess model d).confidence ≤ 100 := by
  refine ⟨rfl, ?_, ?_⟩
  · have hmax : (0:ℚ) ≤ max (model.predict_proba d).1 (model.predict_proba d).2 :=
      le_trans h0 (le_max_left _ _)
    show (0:ℚ) ≤ max (model.predict_proba d).1 (model.predict_proba d).2 * 100
    nlinarith
  · have hmax : max (model.predict_proba d).1 (model.predict_proba d).2 ≤ 1 :=
      max_le h1 h2
    show max (model.predict_proba d).1 (model.predict_proba d).2 * 100 ≤ 100
    nlinarith

/-- Witness for the amended C2 at probabilities (0.20, 0.80). -/
theorem C2_confidence_amended_witness :
    (assess probClassifier (input_data sampleRaw)).confidence
      = max (probClassifier.predict_proba (input_data sampleRaw)).1
          (probClassifier.predict_proba (input_data sampleRaw)).2 * 100 ∧
    (0:ℚ) ≤ (assess probClassifier (input_data sampleRaw)).confidence ∧
    (assess probClassifier (input_data sampleRaw)).confidence ≤ 100 :=
  C2_confidence_amended probClassifier (input_data sampleRaw)
    (by norm_num [probClassifier]) (by norm_num [probClassifier])
    (by norm_num [probClassifier])

/-- Claim C3 counterexample: in the logged run of the adapter the
predict_proba operation is invoked twice, not once. -/
theorem C3_calls_counterexample :
    ¬((assessLogged probClassifier (input_data sampleRaw)).2.countP isProbaCall
        = 1) := by
  have h : (assessLogged probClassifier (input_data sampleRaw)).2.countP isProbaCall
      = 2 := rfl
  rw [h]
  norm_num

/-- Claim C3 amended: per assessment the adapter invokes predict exactly
once and predict_proba exactly twice, every call carrying the single
derived feature row; both predict_proba calls have the same argument,
and the logged run returns the same result as the plain adapter. -/
theorem C3_calls_amended (model : Classifier) (d : List (String × ℚ)) :
    (assessLogged model d).2
      = [CallEvent.predictCall d, CallEvent.probaCall d, CallEvent.probaCall d] ∧
    (assessLogged model d).2.countP isPredictCall = 1 ∧
    (assessLogged model d).2.countP isProbaCall = 2 ∧
    (assessLogged model d).1 = assess model d :=
  ⟨rfl, rfl, rfl, rfl⟩

/-- Helper: the full characterization of the bmi bucket function. -/
theorem bmi_cat_spec (b : ℚ) :
    (bmi_catOf b = 0 ↔ b < 37/2) ∧
    (bmi_catOf b = 1 ↔ 37/2 ≤ b ∧ b < 25) ∧
    (bmi_catOf b = 2 ↔ 25 ≤ b ∧ b < 30) ∧
    (bmi_catOf b = 3 ↔ 30 ≤ b) := by
  unfold bmi_catOf
  split_ifs with h1 h2 h3 <;> refine ⟨?_, ?_, ?_, ?_⟩ <;> simp_all <;>
    first
    | linarith
    | (intro h; linarith)

/-- Claim C4: bmi_cat is 0 below 18.5, 1 on [18.5,25), 2 on [25,30),
3 from 30 upward, with lower bounds inclusive: 18.5 maps to 1, 25 to 2,
30 to 3. -/
theorem C4_bmi_cat_boundaries (b : ℚ) :
    (bmi_catOf b = 0 ↔ b < 37/2) ∧
    (bmi_catOf b = 1 ↔ 37/2 ≤ b ∧ b < 25) ∧
    (bmi_catOf b = 2 ↔ 25 ≤ b ∧ b < 30) ∧
    (bmi_catOf b = 3 ↔ 30 ≤ b) ∧
    bmi_catOf (37/2) = 1 ∧ bmi_catOf 25 = 2 ∧ bmi_catOf 30 = 3 := by
  obtain ⟨i0, i1, i2, i3⟩ := bmi_cat_spec b
  refine ⟨i0, i1, i2, i3, ?_, ?_, ?_⟩
  · exact (bmi_cat_spec (37/2)).2.1.mpr (by norm_num)
  · exact (bmi_cat_spec 25).2.2.1.mpr (by norm_num)
  · exact (bmi_cat_spec 30).2.2.2.mpr (by norm_num)

/-- Claim C5: for in-range height and weight the derived bmi equals
weight / (height/100)²; the rational embedding makes the float identity
exact. -/
theorem C5_bmi_formula (r : RawAssessmentInput)
    (hh1 : 120 ≤ r.height) (hh2 : r.height ≤ 220)
    (hw1 : 30 ≤ r.weight) (hw2 : r.weight ≤ 200) :
    (derive r).bmi = (r.weight : ℚ) / (((r.height : ℚ) / 100) ^ 2) := rfl

/-- Witness for C5: height 165 and weight 70 give bmi = 28000/1089,
which is 25.71 to two decimals. -/
theorem C5_bmi_formula_witness :
    (120 ≤ sampleRaw.height ∧ sampleRaw.height ≤ 220 ∧
      30 ≤ sampleRaw.weight ∧ sampleRaw.weight ≤ 200) ∧
    (derive sampleRaw).bmi
      = (sampleRaw.weight : ℚ) / (((sampleRaw.height : ℚ) / 100) ^ 2) ∧
    (derive sampleRaw).bmi = 28000/1089 := by
  refine ⟨by refine ⟨by decide, by decide, by decide, by decide⟩,
    C5_bmi_formula sampleRaw (by decide) (by decide) (by decide) (by decide), ?_⟩
  norm_num [derive, bmiOf, sampleRaw]

/-- Claim C6: bp_diff is plain integer subtraction ap_hi − ap_lo with no
clamping, so it is negative whenever ap_hi < ap_lo. -/
theorem C6_bp_diff_subtraction (r : RawAssessmentInput) :
    (derive r).bp_diff = r.ap_hi - r.ap_lo ∧
    (r.ap_hi < r.ap_lo → (derive r).bp_diff < 0) := by
  refine ⟨rfl, fun h => ?_⟩
  show r.ap_hi - r.ap_lo < 0
  omega

/-- Witness for C6 at ap_hi = 90 < ap_lo = 120: bp_diff is −30. -/
theorem C6_bp_diff_subtraction_witness :
    (derive lowHighRaw).bp_diff = lowHighRaw.ap_hi - lowHighRaw.ap_lo ∧
    lowHighRaw.ap_hi < lowHighRaw.ap_lo ∧
    (derive lowHighRaw).bp_diff < 0 := by
  have h := C6_bp_diff_subtraction lowHighRaw
  exact ⟨h.1, by decide, h.2 (by decide)⟩

/-- Claim C7: the row handed to the classifier has exactly the 14 named
fields in the source dict order, with every raw field passed through
unchanged. -/
theorem C7_feature_record_fields (r : RawAssessmentInput) :
    (input_data r).map Prod.fst
      = ["age_years", "height", "weight", "ap_hi", "ap_lo", "bmi", "bp_diff",
          "gender", "cholesterol", "gluc", "smoke", "active", "alco", "bmi_cat"] ∧
    (input_data r).length = 14 ∧
    (input_data r).lookup "age_years" = some (r.age_years : ℚ) ∧
    (input_data r).lookup "height" = some (r.height : ℚ) ∧
    (input_data r).lookup "weight" = some (r.weight : ℚ) ∧
    (input_data r).lookup "ap_hi" = some (r.ap_hi : ℚ) ∧
    (input_data r).lookup "ap_lo" = some (r.ap_lo : ℚ) ∧
    (input_data r).lookup "gender" = some (r.gender : ℚ) ∧
    (input_data r).lookup "cholesterol" = some (r.cholesterol : ℚ) ∧
    (input_data r).lookup "gluc" = some (r.gluc : ℚ) ∧
    (input_data r).lookup "smoke" = some (r.smoke : ℚ) ∧
    (input_data r).lookup "active" = some (r.active : ℚ) ∧
    (input_data r).lookup "alco" = some (r.alco : ℚ) :=
  ⟨rfl, rfl, rfl, rfl, rfl, rfl, rfl, rfl, rfl, rfl, rfl, rfl, rfl⟩

/-- Claim C8: when the classifier artifact fails to load the session
produces the load error and never an assessment result. -/
theorem C8_load_failure_no_result (e : String) (r : RawAssessmentInput) :
    runSession (LoadOutcome.failed e) r
      = Except.error ("Error loading model: " ++ e) ∧
    ∀ res : AssessmentResult,
      runSession (LoadOutcome.failed e) r ≠ Except.ok res := by
  refine ⟨rfl, fun res h => ?_⟩
  simp [runSession] at h

/-- Claim C9: the risk tier and its advisory message are functions of
the positive-class probability alone — two assessments agreeing on the
probability agree on tier and message whatever the classifiers and raw
inputs are — and derivation of identical raw input is deterministic. -/
theorem C9_tier_function_of_probability (m1 m2 : Classifier)
    (r1 r2 : RawAssessmentInput)
    (h : (assess m1 (input_data r1)).probability
        = (assess m2 (input_data r2)).probability) :
    (assess m1 (input_data r1)).risk_label
      = (assess m2 (input_data r2)).risk_label ∧
    (assess m1 (input_data r1)).msg = (assess m2 (input_data r2)).msg ∧
    derive r1 = derive r1 := by
  refine ⟨?_, ?_, rfl⟩
  · show risk_labelOf (assess m1 (input_data r1)).probability
      = risk_labelOf (assess m2 (input_data r2)).probability
    exact congrArg risk_labelOf h
  · show msgOf (assess m1 (input_data r1)).probability
      = msgOf (assess m2 (input_data r2)).probability
    exact congrArg msgOf h

/-- Witness for C9: two different raw inputs under the same classifier
share the probability 0.80, hence tier and message coincide. -/
theorem C9_tier_function_of_probability_witness :
    (assess probClassifier (input_data sampleRaw)).risk_label
      = (assess probClassifier (input_data lowHighRaw)).risk_label ∧
    (assess probClassifier (input_data sampleRaw)).msg
      = (assess probClassifier (input_data lowHighRaw)).msg ∧
    derive sampleRaw = derive sampleRaw :=
  C9_tier_function_of_probability probClassifier probClassifier
    sampleRaw lowHighRaw rfl

/-- Claim C10: the bmi bucketing is total — every rational bmi falls in
exactly one of the four interval buckets — and the assigned category is
always one of 0, 1, 2, 3 and matches the bucket the bmi lies in. -/
theorem C10_bucketing_total_unique (b : ℚ) :
    bmi_catOf b ≤ 3 ∧ inBucket (bmi_catOf b) b ∧ ∃! c : ℕ, inBucket c b := by
  obtain ⟨i0, i1, i2, i3⟩ := bmi_cat_spec b
  have hle : bmi_catOf b ≤ 3 := by
    unfold bmi_catOf
    split_ifs <;> norm_num
  have hin : inBucket (bmi_catOf b) b := by
    unfold bmi_catOf inBucket
    split_ifs with h1 h2 h3 <;> simp_all <;> linarith
  refine ⟨hle, hin, bmi_catOf b, hin, fun y hy => ?_⟩
  match y with
  | 0 => exact (i0.mpr hy).symm
  | 1 => exact (i1.mpr hy).symm
  | 2 => exact (i2.mpr hy).symm
  | 3 => exact (i3.mpr hy).symm
  | (n + 4) => exact hy.elim

end CardioAI
